import Mathlib

/-!
Formal model of the FindMyRent API self-defense layer.

Part 1: the token-bucket rate limiter, a shallow embedding of
`src/middleware/rate_limiting.py` (`TokenBucket`, and the admit/reject
decision taken by `RateLimitMiddleware.dispatch`).  Python floats are
modelled as rationals; `time.time()` values are passed in explicitly as
rational timestamps.
-/

/-- Python `int(x)` truncation toward zero, on a rational. -/
def pyInt (q : ℚ) : ℤ := if 0 ≤ q then ⌊q⌋ else ⌈q⌉

/-- State of a `TokenBucket` (src/middleware/rate_limiting.py, `__init__`):
`capacity`, `refill_rate` (tokens per second), current `tokens`, and the
`last_refill` timestamp. -/
structure TokenBucket where
  capacity : ℚ
  refill_rate : ℚ
  tokens : ℚ
  last_refill : ℚ
deriving DecidableEq

/-- `TokenBucket.__init__(capacity, refill_rate)` called at time `now`:
the bucket starts full (`tokens = float(capacity)`). -/
def TokenBucket.init (capacity : ℕ) (refill_rate : ℚ) (now : ℚ) : TokenBucket :=
  { capacity := capacity, refill_rate := refill_rate, tokens := capacity, last_refill := now }

/-- `TokenBucket._refill` at time `now`:
`tokens = min(capacity, tokens + (now - last_refill) * refill_rate)`,
then `last_refill = now`. -/
def TokenBucket.refill (b : TokenBucket) (now : ℚ) : TokenBucket :=
  { b with tokens := min b.capacity (b.tokens + (now - b.last_refill) * b.refill_rate),
           last_refill := now }

/-- `TokenBucket.consume(tokens)` at time `now`: refill first, then if
`tokens >= toks` consume them and return `True`, else return `False`. -/
def TokenBucket.consume (b : TokenBucket) (now : ℚ) (toks : ℚ) : Bool × TokenBucket :=
  let b1 := b.refill now
  if toks ≤ b1.tokens then (true, { b1 with tokens := b1.tokens - toks })
  else (false, b1)

/-- `TokenBucket.get_available_tokens` at time `now` (it refills, then
reads the count); returns the updated bucket alongside the count. -/
def TokenBucket.getAvailable (b : TokenBucket) (now : ℚ) : ℚ × TokenBucket :=
  ((b.refill now).tokens, b.refill now)

/-- The rate-limit decision visible to the client, as assembled by
`RateLimitMiddleware.dispatch`: whether the request is allowed, the
`X-RateLimit-Limit` header value, the `X-RateLimit-Remaining` header value
(`int(bucket.get_available_tokens())` on allow, `0` on reject), and
`retry_after` = `int(1 / refill_rate) + 1` on reject. -/
structure AdmitDecision where
  allowed : Bool
  limit : ℚ
  remaining : ℤ
  retryAfterSeconds : Option ℤ
deriving DecidableEq

/-- The per-request rate-limiting step of `RateLimitMiddleware.dispatch`
for one client's bucket at time `now`: try `bucket.consume()`; on success
report `int(bucket.get_available_tokens())` remaining; on failure respond
429 with `retry_after = int(1 / refill_rate) + 1` and remaining `0`. -/
def dispatchRequest (rpm : ℚ) (b : TokenBucket) (now : ℚ) : AdmitDecision × TokenBucket :=
  let res := b.consume now 1
  if res.1 then
    let b2 := res.2.refill now
    ({ allowed := true, limit := rpm, remaining := pyInt b2.tokens, retryAfterSeconds := none }, b2)
  else
    ({ allowed := false, limit := rpm, remaining := 0,
       retryAfterSeconds := some (pyInt (1 / res.2.refill_rate) + 1) }, res.2)

/-- Bucket state after `k` rate-limited requests from one client, all
dispatched through the middleware. -/
def requestsAfter (rpm now : ℚ) (b : TokenBucket) : ℕ → TokenBucket
  | 0 => b
  | k + 1 => (dispatchRequest rpm (requestsAfter rpm now b k) now).2

/-- One operation on a bucket: a bare `_refill` (as performed by
`get_available_tokens`) or a `consume` of `toks` tokens, each at a
given time. -/
inductive BucketOp where
  | refillOp (now : ℚ)
  | consumeOp (now : ℚ) (toks : ℚ)
deriving DecidableEq

/-- Apply one operation to a bucket. -/
def applyOp (b : TokenBucket) : BucketOp → TokenBucket
  | .refillOp now => b.refill now
  | .consumeOp now toks => (b.consume now toks).2

/-- Apply a sequence of operations, oldest first. -/
def applyOps (b : TokenBucket) : List BucketOp → TokenBucket
  | [] => b
  | op :: ops => applyOps (applyOp b op) ops

/-- An operation is well-timed for bucket `b` when its timestamp does not
precede `b.last_refill` (the clock is monotone) and a consumption is of a
nonnegative amount (the middleware only ever consumes 1). -/
def opOk (b : TokenBucket) : BucketOp → Prop
  | .refillOp now => b.last_refill ≤ now
  | .consumeOp now toks => b.last_refill ≤ now ∧ 0 ≤ toks

/-- A whole operation sequence is well-timed from bucket `b`. -/
def ValidSeq (b : TokenBucket) : List BucketOp → Prop
  | [] => True
  | op :: ops => opOk b op ∧ ValidSeq (applyOp b op) ops

/-- Structural well-formedness of a bucket: nonnegative capacity, positive
refill rate, and tokens within `[0, capacity]`. -/
def TokenBucket.WF (b : TokenBucket) : Prop :=
  0 ≤ b.capacity ∧ 0 < b.refill_rate ∧ 0 ≤ b.tokens ∧ b.tokens ≤ b.capacity

/-!
Part 2: the credential layer, a shallow embedding of
`src/security/helpers.py` (JWE payload construction and decoding),
`src/security/refresh_token.py` (`SecureRefreshTokenService` over Redis),
and the auth endpoints of `src/routers/auth.py`.

JWE encryption with the server key is authenticated and round-trips, so a
token is modelled by its decrypted JSON payload: a record of optional
claim fields (a missing field is `none`, as `dict.get` returns `None`).
Redis is modelled as the list of live keys (with the TTL each `setex`
wrote), using one constructor per key prefix the service writes
(`used_refresh_token:`, `token_family:`, `user_tokens:{uid}:...`).
-/

/-- Decrypted JSON payload of a JWE token: the union of the claim fields
written by `create_access_token` (`sub`, `scopes`, `exp`) and
`create_refresh_token` (`user_id`, `token_family`, `jti`, `issued_at`,
`type`, `exp`); a field absent from the JSON object is `none`. -/
structure Payload where
  sub : Option String
  scopes : Option (List String)
  user_id : Option String
  token_family : Option String
  jti : Option String
  issued_at : Option ℚ
  ty : Option String
  exp : Option ℚ
deriving DecidableEq

/-- Validated refresh-token claims (`schema/security.py, RefreshTokenData`). -/
structure RefreshTokenData where
  user_id : String
  token_family : String
  jti : String
  issued_at : ℚ
deriving DecidableEq

/-- `create_access_token(data, expires_delta)` for the call sites in
`routers/auth.py`: `data = {"sub": ..., "scopes": ...}`, and
`exp = now + expires_delta` is appended before encryption. -/
def create_access_token (data_sub : String) (data_scopes : List String)
    (now expires_delta : ℚ) : Payload :=
  { sub := some data_sub, scopes := some data_scopes, user_id := none,
    token_family := none, jti := none, issued_at := none, ty := none,
    exp := some (now + expires_delta) }

/-- `create_refresh_token(user_id, token_family)` at time `now` with the
freshly drawn `jti` (`secrets.token_urlsafe(32)`) passed explicitly:
claims `user_id`, `token_family`, `jti`, `issued_at = now`,
`type = "refresh"`, `exp = now + days*86400` with `days` read from
`REFRESH_TOKEN_EXPIRE_DAYS`. -/
def create_refresh_token (uid fam jtiNew : String) (now : ℚ) (days : ℕ) : Payload :=
  { sub := none, scopes := none, user_id := some uid, token_family := some fam,
    jti := some jtiNew, issued_at := some now, ty := some "refresh",
    exp := some (now + (days : ℚ) * 86400) }

/-- `decode_refresh_token` on a decryptable payload at time `now`: reject
unless `type == "refresh"`; reject when any of `user_id`, `token_family`,
`jti`, `issued_at`, `exp` is missing or falsy (Python `all([...])`:
`None`, the empty string and `0.0` are falsy); reject when
`now > exp`; otherwise return the `RefreshTokenData`. -/
def decode_refresh_token (p : Payload) (now : ℚ) : Option RefreshTokenData :=
  if p.ty ≠ some "refresh" then none
  else
    match p.user_id, p.token_family, p.jti, p.issued_at, p.exp with
    | some uid, some fam, some j, some iat, some e =>
      if uid = "" ∨ fam = "" ∨ j = "" ∨ iat = 0 ∨ e = 0 then none
      else if now > e then none
      else some { user_id := uid, token_family := fam, jti := j, issued_at := iat }
    | _, _, _, _, _ => none

/-- Outcome of the token-decoding part of `get_current_user`
(`security/helpers.py`): the recovered `sub`/`scopes`, or a 401
"Could not validate credentials", or a 401 "Token has expired". -/
inductive AccessValidation where
  | ok (username : String) (scopes : List String)
  | credentialsError
  | expired
deriving DecidableEq

/-- The decode-and-check phase of `get_current_user` at time `now`:
build `TokenData(scopes=payload.get("scopes"), username=payload.get("sub"))`
(pydantic rejects `scopes=None`, hence `credentialsError`); raise the
credentials error when `sub` is `None`; raise `ExpiredSignatureError` when
`exp` is missing or `now > exp`; otherwise the subject and scopes are
returned. -/
def validate_access (p : Payload) (now : ℚ) : AccessValidation :=
  match p.scopes with
  | none => .credentialsError
  | some scopes =>
    match p.sub with
    | none => .credentialsError
    | some username =>
      match p.exp with
      | none => .expired
      | some e => if now > e then .expired else .ok username scopes

/-- A Redis key written by the credential layer, one constructor per
prefix: `used_refresh_token:{jti}`, `token_family:{family}`, and
`user_tokens:{uid}:{rest}` (the pattern `revoke_all_user_tokens`
deletes). The prefixes are distinct strings, so distinct constructors
never collide as keys. -/
inductive RKey where
  | usedJti (jti : String)
  | tokenFamily (fam : String)
  | userTok (uid : String) (rest : String)
deriving DecidableEq

/-- The Redis state: the list of live keys, each with the TTL (seconds)
its `setex` wrote.  A repeated `setex` conses a fresh entry, shadowing
the older one. -/
abbrev Store := List (RKey × ℕ)

/-- The keys present in the store. -/
def keysOf (s : Store) : List RKey := s.map Prod.fst

/-- `SecureRefreshTokenService.__init__`: the configured
`refresh_token_ttl = REFRESH_TOKEN_EXPIRE_DAYS * 24 * 3600` seconds. -/
structure RefreshService where
  refresh_token_ttl : ℕ
deriving DecidableEq

/-- Build the service from the `REFRESH_TOKEN_EXPIRE_DAYS` setting. -/
def RefreshService.ofDays (days : ℕ) : RefreshService :=
  { refresh_token_ttl := days * 24 * 3600 }

/-- `mark_token_as_used(jti)`: `setex("used_refresh_token:"+jti,
refresh_token_ttl, "used")`. -/
def mark_token_as_used (svc : RefreshService) (s : Store) (j : String) : Store :=
  (RKey.usedJti j, svc.refresh_token_ttl) :: s

/-- `is_token_used(jti)`: `exists("used_refresh_token:"+jti) > 0`. -/
def is_token_used (s : Store) (j : String) : Prop :=
  RKey.usedJti j ∈ keysOf s

instance (s : Store) (j : String) : Decidable (is_token_used s j) :=
  inferInstanceAs (Decidable (_ ∈ _))

/-- `invalidate_token_family(family)`: `setex("token_family:"+family,
refresh_token_ttl, "invalidated")`. -/
def invalidate_token_family (svc : RefreshService) (s : Store) (f : String) : Store :=
  (RKey.tokenFamily f, svc.refresh_token_ttl) :: s

/-- `is_token_family_valid(family)`: `exists("token_family:"+family) == 0`
(absence of the invalidation marker means valid). -/
def is_token_family_valid (s : Store) (f : String) : Prop :=
  RKey.tokenFamily f ∉ keysOf s

instance (s : Store) (f : String) : Decidable (is_token_family_valid s f) :=
  inferInstanceAs (Decidable (_ ∉ _))

/-- `revoke_all_user_tokens(user_id)`: `delete` every key matching the
glob `user_tokens:{user_id}:*`; no other key is touched. -/
def revoke_all_user_tokens (s : Store) (uid : String) : Store :=
  s.filter (fun e =>
    match e.1 with
    | RKey.userTok u _ => decide (u ≠ uid)
    | _ => true)

/-- The TTL most recently `setex`-written for a key, if the key is live. -/
def storedTTL (s : Store) (k : RKey) : Option ℕ :=
  (s.find? (fun e => decide (e.1 = k))).map Prod.snd

/-- Remaining lifetime of a credential at time `now`: its `exp` claim
minus `now` (0 when the payload carries no expiry). -/
def remainingLifetime (p : Payload) (now : ℚ) : ℚ :=
  match p.exp with
  | some e => e - now
  | none => 0

/-- A user as the refresh flow sees it: `User.get` result with the fields
`refresh_access_token` reads (`id`, `email`, `is_active`, `user_type`). -/
structure UserRec where
  id : String
  email : String
  is_active : Bool
  user_type : String
deriving DecidableEq

/-- The database environment of the auth endpoints: `get_user_by_id`
(`User.get`, `None` on any failure) and the `Permissions.find_one`
lookup from a `user_type` to its permission strings. -/
structure Env where
  lookupUser : String → Option UserRec
  lookupPerms : String → Option (List String)

/-- Outcome of `POST /api/v1/auth/refresh`: a fresh token pair, or one of
the handler's HTTP failures, or an exception from an unreachable Redis
escaping the handler (there is no try/except around the
`secure_service` calls). -/
inductive RefreshOutcome where
  | ok (accessTok : Payload) (refreshTok : Payload)
  | invalidToken
  | replayDetected
  | familyInvalidated
  | userNotFound
  | permissionsMissing
  | storeExn
deriving DecidableEq

/-- HTTP status the client observes for each refresh outcome: the
handler's own `HTTPException` codes, and 500 for an exception that
escapes the handler (the framework converts an unhandled exception into a
generic internal-server-error response). -/
def httpStatus : RefreshOutcome → ℕ
  | .ok _ _ => 200
  | .invalidToken => 401
  | .replayDetected => 401
  | .familyInvalidated => 401
  | .userNotFound => 401
  | .permissionsMissing => 403
  | .storeExn => 500

/-- `refresh_access_token` (`routers/auth.py`): decode the refresh token
(401 on failure); with Redis unreachable (`avail = false`) the first
store call raises and the exception escapes; on a used `jti` invalidate
the whole family and fail 401 (replay); on an invalidated family fail
401; otherwise mark the `jti` used, then look up the user (401 when
missing or inactive), then its permission set (403 when absent), and
mint a new access token for `user.id` and a new refresh token carrying
the same `token_family` and the fresh `newJti`. -/
def refresh_access_token (env : Env) (svc : RefreshService) (accessMinutes : ℚ)
    (days : ℕ) (avail : Bool) (s : Store) (tok : Payload) (now : ℚ)
    (newJti : String) : RefreshOutcome × Store :=
  match decode_refresh_token tok now with
  | none => (.invalidToken, s)
  | some d =>
    if avail = false then (.storeExn, s)
    else if is_token_used s d.jti then
      (.replayDetected, invalidate_token_family svc s d.token_family)
    else if ¬ is_token_family_valid s d.token_family then
      (.familyInvalidated, s)
    else
      let s1 := mark_token_as_used svc s d.jti
      match env.lookupUser d.user_id with
      | none => (.userNotFound, s1)
      | some u =>
        if u.is_active = false then (.userNotFound, s1)
        else
          match env.lookupPerms u.user_type with
          | none => (.permissionsMissing, s1)
          | some perms =>
            (.ok (create_access_token u.id perms now (accessMinutes * 60))
                 (create_refresh_token u.id d.token_family newJti now days), s1)

/-- `logout` (`routers/auth.py`): decode the refresh token; when it
decodes, mark its `jti` used; in every case answer
`{"message": "Successfully logged out"}`. -/
def logout (svc : RefreshService) (s : Store) (tok : Payload) (now : ℚ) :
    String × Store :=
  match decode_refresh_token tok now with
  | some d => ("Successfully logged out", mark_token_as_used svc s d.jti)
  | none => ("Successfully logged out", s)

/-- Outcome of `POST /api/v1/auth/logout-all`. -/
inductive LogoutAllOutcome where
  | ok
  | invalidToken
deriving DecidableEq

/-- `logout_all_devices` (`routers/auth.py`): decode the refresh token
(401 on failure), then `revoke_all_user_tokens(user_id)`. -/
def logout_all_devices (s : Store) (tok : Payload) (now : ℚ) :
    LogoutAllOutcome × Store :=
  match decode_refresh_token tok now with
  | none => (.invalidToken, s)
  | some d => (.ok, revoke_all_user_tokens s d.user_id)

/-- Iterated sequential rotation: starting from a refresh credential and a
store, perform `k` refresh calls, each presenting the credential produced
by the previous one, drawing the fresh `jti` of step `i` from the stream
`js`; a failing step stops the chain (keeping the old credential). -/
def rotateIter (env : Env) (svc : RefreshService) (m : ℚ) (days : ℕ) (now : ℚ) :
    (ℕ → String) → ℕ → Payload × Store → Payload × Store
  | _, 0, ps => ps
  | js, k + 1, ps =>
    match refresh_access_token env svc m days true ps.2 ps.1 now (js 0) with
    | (RefreshOutcome.ok _ r, s1) => rotateIter env svc m days now (fun i => js (i + 1)) k (r, s1)
    | (_, s1) => (ps.1, s1)

/-- Preconditions under which a rotation chain runs cleanly: the current
credential decodes to family `fam` and an unused `jti`, the family is not
invalidated, the stream `js` of fresh `jti` draws is injective, nonempty,
unused and distinct from the current `jti`, the user resolves (also under
its own `id`), is active and has a permission set, the identifying
strings are nonempty (Python truthiness), and the clock is positive. -/
def GoodChain (env : Env) (u : UserRec) (perms : List String) (fam : String)
    (days : ℕ) (now : ℚ) (js : ℕ → String) (p : Payload) (s : Store) : Prop :=
  (∃ d, decode_refresh_token p now = some d ∧ d.token_family = fam
      ∧ env.lookupUser d.user_id = some u
      ∧ ¬ is_token_used s d.jti ∧ (∀ i, js i ≠ d.jti))
  ∧ is_token_family_valid s fam
  ∧ (∀ i, ¬ is_token_used s (js i))
  ∧ Function.Injective js
  ∧ (∀ i, js i ≠ "")
  ∧ u.is_active = true
  ∧ env.lookupUser u.id = some u
  ∧ env.lookupPerms u.user_type = some perms
  ∧ u.id ≠ "" ∧ fam ≠ "" ∧ 0 < now

/-- A concrete user record, for instantiating the endpoint theorems. -/
def uT : UserRec :=
  { id := "u1", email := "u1@example.com", is_active := true, user_type := "landlord" }

/-- A concrete database environment with the single user `uT`, whose
`landlord` role has the permission set `["me"]`. -/
def envT : Env :=
  { lookupUser := fun uid => if uid = "u1" then some uT else none,
    lookupPerms := fun ut => if ut = "landlord" then some ["me"] else none }

/-- A database environment in which every user lookup fails. -/
def envNone : Env :=
  { lookupUser := fun _ => none, lookupPerms := fun _ => none }

/-- A concrete injective stream of nonempty `jti` strings. -/
def jsW (i : ℕ) : String := String.mk (List.replicate (i + 1) 'a')

theorem pyInt_intCast (n : ℤ) : pyInt (n : ℚ) = n := by
  unfold pyInt
  split <;> simp

theorem pyInt_of_nonneg (q : ℚ) (h : 0 ≤ q) : pyInt q = ⌊q⌋ := by
  unfold pyInt
  exact if_pos h

theorem TokenBucket.refill_same (cap r m t : ℚ) (hm : m ≤ cap) :
    TokenBucket.refill ⟨cap, r, m, t⟩ t = ⟨cap, r, m, t⟩ := by
  simp [TokenBucket.refill, min_eq_right hm]

theorem TokenBucket.consume_ok (cap r m t : ℚ) (h1 : 1 ≤ m) (h2 : m ≤ cap) :
    TokenBucket.consume ⟨cap, r, m, t⟩ t 1 = (true, ⟨cap, r, m - 1, t⟩) := by
  simp only [TokenBucket.consume, TokenBucket.refill_same cap r m t h2]
  rw [if_pos h1]

theorem TokenBucket.consume_fail (cap r m t : ℚ) (h1 : m < 1) (h2 : m ≤ cap) :
    TokenBucket.consume ⟨cap, r, m, t⟩ t 1 = (false, ⟨cap, r, m, t⟩) := by
  simp only [TokenBucket.consume, TokenBucket.refill_same cap r m t h2]
  rw [if_neg (by linarith)]

theorem dispatchRequest_ok (rpm cap r m t : ℚ) (h1 : 1 ≤ m) (h2 : m ≤ cap) :
    dispatchRequest rpm ⟨cap, r, m, t⟩ t =
      ({ allowed := true, limit := rpm, remaining := pyInt (m - 1), retryAfterSeconds := none },
        ⟨cap, r, m - 1, t⟩) := by
  simp only [dispatchRequest, TokenBucket.consume_ok cap r m t h1 h2]
  simp [TokenBucket.refill_same cap r (m - 1) t (by linarith)]

theorem dispatchRequest_reject (rpm cap r m t : ℚ) (h1 : m < 1) (h2 : m ≤ cap) :
    dispatchRequest rpm ⟨cap, r, m, t⟩ t =
      ({ allowed := false, limit := rpm, remaining := 0,
         retryAfterSeconds := some (pyInt (1 / r) + 1) }, ⟨cap, r, m, t⟩) := by
  simp only [dispatchRequest, TokenBucket.consume_fail cap r m t h1 h2]
  simp

theorem requestsAfter_full (rpm t r : ℚ) (C : ℕ) :
    ∀ k, k ≤ C →
      requestsAfter rpm t (TokenBucket.init C r t) k = ⟨C, r, (C : ℚ) - k, t⟩ := by
  intro k
  induction k with
  | zero => intro _; simp [requestsAfter, TokenBucket.init]
  | succ k ih =>
    intro hk
    have hkC : k ≤ C := Nat.le_of_succ_le hk
    have hstep : (1 : ℚ) ≤ (C : ℚ) - k := by
      have : (k : ℚ) + 1 ≤ C := by exact_mod_cast hk
      linarith
    have hle : (C : ℚ) - k ≤ (C : ℚ) := by
      have : (0 : ℚ) ≤ k := Nat.cast_nonneg k
      linarith
    show (dispatchRequest rpm (requestsAfter rpm t (TokenBucket.init C r t) k) t).2 = _
    rw [ih hkC, dispatchRequest_ok rpm _ r _ t hstep hle]
    have : (C : ℚ) - k - 1 = (C : ℚ) - (k + 1 : ℕ) := by push_cast; ring
    simp [this]

theorem dispatch_allowed_general (rpm t : ℚ) (C : ℕ) (r : ℚ) (k : ℕ) (hk : k < C) :
    (dispatchRequest rpm (requestsAfter rpm t (TokenBucket.init C r t) k) t).1 =
      { allowed := true, limit := rpm, remaining := (C : ℤ) - 1 - k,
        retryAfterSeconds := none } := by
  rw [requestsAfter_full rpm t r C k (Nat.le_of_lt hk)]
  have hstep : (1 : ℚ) ≤ (C : ℚ) - k := by
    have : (k : ℚ) + 1 ≤ C := by exact_mod_cast hk
    linarith
  have hle : (C : ℚ) - k ≤ (C : ℚ) := by
    have : (0 : ℚ) ≤ k := Nat.cast_nonneg k
    linarith
  rw [dispatchRequest_ok rpm _ r _ t hstep hle]
  have harg : (C : ℚ) - k - 1 = (((C : ℤ) - 1 - k : ℤ) : ℚ) := by push_cast; ring
  rw [harg, pyInt_intCast]

theorem dispatch_rejected_general (rpm t : ℚ) (C : ℕ) (r : ℚ) (hr : 0 < r) :
    (dispatchRequest rpm (requestsAfter rpm t (TokenBucket.init C r t) C) t).1 =
      { allowed := false, limit := rpm, remaining := 0,
        retryAfterSeconds := some (⌊1 / r⌋ + 1) } := by
  rw [requestsAfter_full rpm t r C C (le_refl C)]
  have h0 : (C : ℚ) - C = 0 := by ring
  rw [h0, dispatchRequest_reject rpm _ r _ t (by norm_num) (Nat.cast_nonneg C)]
  rw [pyInt_of_nonneg (1 / r) (by positivity)]

theorem requestsAfter_six (rpm t : ℚ) :
    requestsAfter rpm t (TokenBucket.init 5 1 t) 6 = ⟨5, 1, 0, t⟩ := by
  have h5 : requestsAfter rpm t (TokenBucket.init 5 1 t) 5 = ⟨5, 1, 0, t⟩ := by
    have := requestsAfter_full rpm t 1 5 5 (le_refl 5)
    simpa using this
  show (dispatchRequest rpm (requestsAfter rpm t (TokenBucket.init 5 1 t) 5) t).2 = _
  rw [h5, dispatchRequest_reject rpm 5 1 0 t (by norm_num) (by norm_num)]

/-- Claim C2: starting from a full bucket of capacity `C ≥ 1`, `C`
immediate requests at the same instant are all allowed with remaining
token counts `C-1` down to `0`, and the `(C+1)`th immediate request is
rejected with `retry_after = ⌊1/refillRate⌋ + 1`; concretely with
capacity 5 and rate 1 token/s the five requests leave 4,3,2,1,0 tokens,
the sixth request is rejected with `retry_after = 2`, and after a
1-second wait one more request is allowed. -/
theorem rateLimitBurstSpec (C : ℕ) (r rpm t : ℚ) (hC : 1 ≤ C) (hr : 0 < r) :
    (∀ k, k < C →
      (dispatchRequest rpm (requestsAfter rpm t (TokenBucket.init C r t) k) t).1 =
        { allowed := true, limit := rpm, remaining := (C : ℤ) - 1 - k, retryAfterSeconds := none })
    ∧ (dispatchRequest rpm (requestsAfter rpm t (TokenBucket.init C r t) C) t).1 =
        { allowed := false, limit := rpm, remaining := 0,
          retryAfterSeconds := some (⌊1 / r⌋ + 1) }
    ∧ (∀ k, k < 5 →
      (dispatchRequest rpm (requestsAfter rpm t (TokenBucket.init 5 1 t) k) t).1.remaining =
        4 - k)
    ∧ (dispatchRequest rpm (requestsAfter rpm t (TokenBucket.init 5 1 t) 5) t).1 =
        { allowed := false, limit := rpm, remaining := 0, retryAfterSeconds := some 2 }
    ∧ (dispatchRequest rpm (requestsAfter rpm t (TokenBucket.init 5 1 t) 6) (t + 1)).1.allowed
        = true := by
  refine ⟨fun k hk => dispatch_allowed_general rpm t C r k hk,
          dispatch_rejected_general rpm t C r hr, ?_, ?_, ?_⟩
  · intro k hk
    rw [dispatch_allowed_general rpm t 5 1 k hk]
    push_cast
    ring
  · have := dispatch_rejected_general rpm t 5 1 (by norm_num)
    simpa using this
  · rw [requestsAfter_six rpm t]
    have hone : t + 1 - t = 1 := by ring
    simp [dispatchRequest, TokenBucket.consume, TokenBucket.refill, hone]

/-- Claim C2 witness: the burst theorem instantiated at capacity 5, rate 1,
100 requests/minute, starting time 0. -/
theorem rateLimitBurstSpec_witness :
    1 ≤ 5 ∧ (0 : ℚ) < 1 ∧
    ((∀ k, k < 5 →
      (dispatchRequest 100 (requestsAfter 100 0 (TokenBucket.init 5 1 0) k) 0).1 =
        { allowed := true, limit := 100, remaining := (5 : ℤ) - 1 - k, retryAfterSeconds := none })
    ∧ (dispatchRequest 100 (requestsAfter 100 0 (TokenBucket.init 5 1 0) 5) 0).1 =
        { allowed := false, limit := 100, remaining := 0,
          retryAfterSeconds := some (⌊1 / (1 : ℚ)⌋ + 1) }
    ∧ (∀ k, k < 5 →
      (dispatchRequest 100 (requestsAfter 100 0 (TokenBucket.init 5 1 0) k) 0).1.remaining =
        4 - k)
    ∧ (dispatchRequest 100 (requestsAfter 100 0 (TokenBucket.init 5 1 0) 5) 0).1 =
        { allowed := false, limit := 100, remaining := 0, retryAfterSeconds := some 2 }
    ∧ (dispatchRequest 100 (requestsAfter 100 0 (TokenBucket.init 5 1 0) 6) (0 + 1)).1.allowed
        = true) :=
  ⟨by norm_num, by norm_num, rateLimitBurstSpec 5 1 100 0 (by norm_num) (by norm_num)⟩

theorem TokenBucket.refill_capacity (b : TokenBucket) (now : ℚ) :
    (b.refill now).capacity = b.capacity := rfl

theorem TokenBucket.refill_rate_refill (b : TokenBucket) (now : ℚ) :
    (b.refill now).refill_rate = b.refill_rate := rfl

theorem TokenBucket.WF_refill (b : TokenBucket) (now : ℚ) (hwf : b.WF)
    (hnow : b.last_refill ≤ now) : (b.refill now).WF := by
  obtain ⟨hcap, hrate, h0, h1⟩ := hwf
  refine ⟨hcap, hrate, ?_, ?_⟩
  · show 0 ≤ min b.capacity (b.tokens + (now - b.last_refill) * b.refill_rate)
    have : 0 ≤ (now - b.last_refill) * b.refill_rate :=
      mul_nonneg (by linarith) (le_of_lt hrate)
    exact le_min hcap (by linarith)
  · show min b.capacity (b.tokens + (now - b.last_refill) * b.refill_rate) ≤ b.capacity
    exact min_le_left _ _

theorem TokenBucket.WF_consume (b : TokenBucket) (now toks : ℚ) (hwf : b.WF)
    (hnow : b.last_refill ≤ now) (htoks : 0 ≤ toks) : (b.consume now toks).2.WF := by
  have hr := TokenBucket.WF_refill b now hwf hnow
  obtain ⟨hcap, hrate, h0, h1⟩ := hr
  unfold TokenBucket.consume
  by_cases h : toks ≤ (b.refill now).tokens
  · rw [if_pos h]
    exact ⟨hcap, hrate, by simp; linarith, by simp at *; linarith⟩
  · rw [if_neg h]
    exact ⟨hcap, hrate, h0, h1⟩

theorem applyOp_WF (b : TokenBucket) (op : BucketOp) (hwf : b.WF) (hok : opOk b op) :
    (applyOp b op).WF := by
  cases op with
  | refillOp now => exact TokenBucket.WF_refill b now hwf hok
  | consumeOp now toks => exact TokenBucket.WF_consume b now toks hwf hok.1 hok.2

theorem applyOps_WF (ops : List BucketOp) : ∀ (b : TokenBucket), b.WF → ValidSeq b ops →
    (applyOps b ops).WF := by
  induction ops with
  | nil => intro b hwf _; exact hwf
  | cons op ops ih =>
    intro b hwf hseq
    exact ih (applyOp b op) (applyOp_WF b op hwf hseq.1) hseq.2

/-- Claim C3: (1) along any well-timed sequence of refill/consume
operations from a well-formed bucket, `0 ≤ tokens ≤ capacity` holds;
(2) a refill never decreases the token count and (3) a consumption never
leaves more tokens than the refill it starts with computed — tokens only
move up by refill and down by consumption; (4) the refill amount is
monotone in elapsed time; and (5) after waiting `capacity / refillRate`
seconds with no requests the bucket is exactly full, regardless of prior
depletion. -/
theorem bucketInvariantSpec :
    (∀ (b : TokenBucket) (ops : List BucketOp), b.WF → ValidSeq b ops →
      0 ≤ (applyOps b ops).tokens ∧ (applyOps b ops).tokens ≤ (applyOps b ops).capacity)
    ∧ (∀ (b : TokenBucket) (now : ℚ), b.WF → b.last_refill ≤ now →
      b.tokens ≤ (b.refill now).tokens)
    ∧ (∀ (b : TokenBucket) (now toks : ℚ), 0 ≤ toks →
      (b.consume now toks).2.tokens ≤ (b.refill now).tokens)
    ∧ (∀ (b : TokenBucket) (now₁ now₂ : ℚ), 0 < b.refill_rate → now₁ ≤ now₂ →
      (b.refill now₁).tokens ≤ (b.refill now₂).tokens)
    ∧ (∀ (b : TokenBucket), b.WF →
      (b.refill (b.last_refill + b.capacity / b.refill_rate)).tokens = b.capacity) := by
  refine ⟨?_, ?_, ?_, ?_, ?_⟩
  · intro b ops hwf hseq
    have h := applyOps_WF ops b hwf hseq
    exact ⟨h.2.2.1, h.2.2.2⟩
  · intro b now hwf hnow
    obtain ⟨hcap, hrate, h0, h1⟩ := hwf
    show b.tokens ≤ min b.capacity (b.tokens + (now - b.last_refill) * b.refill_rate)
    have : 0 ≤ (now - b.last_refill) * b.refill_rate :=
      mul_nonneg (by linarith) (le_of_lt hrate)
    exact le_min h1 (by linarith)
  · intro b now toks htoks
    unfold TokenBucket.consume
    by_cases h : toks ≤ (b.refill now).tokens
    · rw [if_pos h]; simp; linarith
    · rw [if_neg h]
  · intro b now₁ now₂ hrate hmono
    show min b.capacity (b.tokens + (now₁ - b.last_refill) * b.refill_rate) ≤
      min b.capacity (b.tokens + (now₂ - b.last_refill) * b.refill_rate)
    have : (now₁ - b.last_refill) * b.refill_rate ≤ (now₂ - b.last_refill) * b.refill_rate :=
      mul_le_mul_of_nonneg_right (by linarith) (le_of_lt hrate)
    exact min_le_min (le_refl _) (by linarith)
  · intro b hwf
    obtain ⟨hcap, hrate, h0, h1⟩ := hwf
    show min b.capacity
      (b.tokens + (b.last_refill + b.capacity / b.refill_rate - b.last_refill) * b.refill_rate)
      = b.capacity
    have hsimp : b.last_refill + b.capacity / b.refill_rate - b.last_refill = b.capacity / b.refill_rate := by
      ring
    rw [hsimp, div_mul_cancel₀ b.capacity (ne_of_gt hrate)]
    exact min_eq_left (by linarith)

/-- Claim C3 witness: the invariant theorem instantiated on a concrete
bucket of capacity 2, rate 1, and a concrete consume-then-refill history. -/
theorem bucketInvariantSpec_witness :
    (TokenBucket.mk 2 1 2 0).WF ∧
    ValidSeq (TokenBucket.mk 2 1 2 0) [BucketOp.consumeOp 0 1, BucketOp.refillOp 3] ∧
    (0 ≤ (applyOps (TokenBucket.mk 2 1 2 0) [BucketOp.consumeOp 0 1, BucketOp.refillOp 3]).tokens ∧
      (applyOps (TokenBucket.mk 2 1 2 0) [BucketOp.consumeOp 0 1, BucketOp.refillOp 3]).tokens ≤
        (applyOps (TokenBucket.mk 2 1 2 0) [BucketOp.consumeOp 0 1, BucketOp.refillOp 3]).capacity) := by
  have hwf : (TokenBucket.mk 2 1 2 0).WF :=
    ⟨by norm_num, by norm_num, by norm_num, by norm_num⟩
  have hseq : ValidSeq (TokenBucket.mk 2 1 2 0) [BucketOp.consumeOp 0 1, BucketOp.refillOp 3] := by
    simp [ValidSeq, opOk, applyOp, TokenBucket.consume, TokenBucket.refill]
  exact ⟨hwf, hseq, bucketInvariantSpec.1 _ _ hwf hseq⟩

theorem refresh_badToken (env : Env) (svc : RefreshService) (m : ℚ) (days : ℕ)
    (avail : Bool) (s : Store) (tok : Payload) (now : ℚ) (j : String)
    (hdec : decode_refresh_token tok now = none) :
    refresh_access_token env svc m days avail s tok now j = (.invalidToken, s) := by
  simp only [refresh_access_token, hdec]

theorem refresh_storeDown (env : Env) (svc : RefreshService) (m : ℚ) (days : ℕ)
    (s : Store) (tok : Payload) (now : ℚ) (j : String) (d : RefreshTokenData)
    (hdec : decode_refresh_token tok now = some d) :
    refresh_access_token env svc m days false s tok now j = (.storeExn, s) := by
  simp only [refresh_access_token, hdec]
  rw [if_pos trivial]

theorem refresh_replay (env : Env) (svc : RefreshService) (m : ℚ) (days : ℕ)
    (s : Store) (tok : Payload) (now : ℚ) (j : String) (d : RefreshTokenData)
    (hdec : decode_refresh_token tok now = some d)
    (hused : is_token_used s d.jti) :
    refresh_access_token env svc m days true s tok now j =
      (.replayDetected, invalidate_token_family svc s d.token_family) := by
  simp only [refresh_access_token, hdec]
  rw [if_neg (by decide : ¬(true = false)), if_pos hused]

theorem refresh_famInvalid (env : Env) (svc : RefreshService) (m : ℚ) (days : ℕ)
    (s : Store) (tok : Payload) (now : ℚ) (j : String) (d : RefreshTokenData)
    (hdec : decode_refresh_token tok now = some d)
    (hunused : ¬ is_token_used s d.jti)
    (hfam : ¬ is_token_family_valid s d.token_family) :
    refresh_access_token env svc m days true s tok now j = (.familyInvalidated, s) := by
  simp only [refresh_access_token, hdec]
  rw [if_neg (by decide : ¬(true = false)), if_neg hunused, if_pos hfam]

theorem refresh_userMissing (env : Env) (svc : RefreshService) (m : ℚ) (days : ℕ)
    (s : Store) (tok : Payload) (now : ℚ) (j : String) (d : RefreshTokenData)
    (hdec : decode_refresh_token tok now = some d)
    (hunused : ¬ is_token_used s d.jti)
    (hfam : is_token_family_valid s d.token_family)
    (hu : env.lookupUser d.user_id = none) :
    refresh_access_token env svc m days true s tok now j =
      (.userNotFound, mark_token_as_used svc s d.jti) := by
  simp only [refresh_access_token, hdec, hu]
  rw [if_neg (by decide : ¬(true = false)), if_neg hunused, if_neg (not_not_intro hfam)]

theorem refresh_userInactive (env : Env) (svc : RefreshService) (m : ℚ) (days : ℕ)
    (s : Store) (tok : Payload) (now : ℚ) (j : String) (d : RefreshTokenData)
    (u : UserRec)
    (hdec : decode_refresh_token tok now = some d)
    (hunused : ¬ is_token_used s d.jti)
    (hfam : is_token_family_valid s d.token_family)
    (hu : env.lookupUser d.user_id = some u)
    (hact : u.is_active = false) :
    refresh_access_token env svc m days true s tok now j =
      (.userNotFound, mark_token_as_used svc s d.jti) := by
  simp only [refresh_access_token, hdec, hu]
  rw [if_neg (by decide : ¬(true = false)), if_neg hunused, if_neg (not_not_intro hfam), if_pos hact]

theorem refresh_noPerms (env : Env) (svc : RefreshService) (m : ℚ) (days : ℕ)
    (s : Store) (tok : Payload) (now : ℚ) (j : String) (d : RefreshTokenData)
    (u : UserRec)
    (hdec : decode_refresh_token tok now = some d)
    (hunused : ¬ is_token_used s d.jti)
    (hfam : is_token_family_valid s d.token_family)
    (hu : env.lookupUser d.user_id = some u)
    (hact : u.is_active = true)
    (hperms : env.lookupPerms u.user_type = none) :
    refresh_access_token env svc m days true s tok now j =
      (.permissionsMissing, mark_token_as_used svc s d.jti) := by
  simp only [refresh_access_token, hdec, hu, hperms]
  rw [if_neg (by decide : ¬(true = false)), if_neg hunused, if_neg (not_not_intro hfam),
      if_neg (by simp [hact])]

theorem refresh_success (env : Env) (svc : RefreshService) (m : ℚ) (days : ℕ)
    (s : Store) (tok : Payload) (now : ℚ) (j : String) (d : RefreshTokenData)
    (u : UserRec) (perms : List String)
    (hdec : decode_refresh_token tok now = some d)
    (hunused : ¬ is_token_used s d.jti)
    (hfam : is_token_family_valid s d.token_family)
    (hu : env.lookupUser d.user_id = some u)
    (hact : u.is_active = true)
    (hperms : env.lookupPerms u.user_type = some perms) :
    refresh_access_token env svc m days true s tok now j =
      (.ok (create_access_token u.id perms now (m * 60))
           (create_refresh_token u.id d.token_family j now days),
       mark_token_as_used svc s d.jti) := by
  simp only [refresh_access_token, hdec, hu, hperms]
  rw [if_neg (by decide : ¬(true = false)), if_neg hunused, if_neg (not_not_intro hfam),
      if_neg (by simp [hact])]

theorem decode_create_refresh (uid fam j : String) (tIssue now : ℚ) (days : ℕ)
    (huid : uid ≠ "") (hfam : fam ≠ "") (hj : j ≠ "") (hiat : tIssue ≠ 0)
    (hexp : tIssue + (days : ℚ) * 86400 ≠ 0)
    (hnotexp : ¬ now > tIssue + (days : ℚ) * 86400) :
    decode_refresh_token (create_refresh_token uid fam j tIssue days) now =
      some { user_id := uid, token_family := fam, jti := j, issued_at := tIssue } := by
  simp only [decode_refresh_token, create_refresh_token]
  rw [if_neg (not_not_intro rfl)]
  rw [if_neg (by push_neg; exact ⟨huid, hfam, hj, hiat, hexp⟩)]
  rw [if_neg hnotexp]

/-- Claim C4: round-trip of the credential codec — validating an access
credential issued as `create_access_token(subject, scopes, ttl)` returns
the original subject and scopes at any validation time strictly before the
expiry `now + ttl`, and fails as expired at any validation time strictly
after it. -/
theorem accessTokenRoundTrip (sub : String) (scopes : List String)
    (now ttl t1 t2 : ℚ) (h1 : t1 < now + ttl) (h2 : now + ttl < t2) :
    validate_access (create_access_token sub scopes now ttl) t1 =
      AccessValidation.ok sub scopes
    ∧ validate_access (create_access_token sub scopes now ttl) t2 =
      AccessValidation.expired := by
  constructor
  · simp only [validate_access, create_access_token]
    rw [if_neg (by linarith)]
  · simp only [validate_access, create_access_token]
    rw [if_pos (by linarith)]

/-- Claim C4 witness: the round-trip theorem at subject `"alice"`, scopes
`["me"]`, issued at time 0 with a 900-second ttl, validated at times 10
and 1000. -/
theorem accessTokenRoundTrip_witness :
    (10 : ℚ) < 0 + 900 ∧ (0 : ℚ) + 900 < 1000 ∧
    (validate_access (create_access_token "alice" ["me"] 0 900) 10 =
        AccessValidation.ok "alice" ["me"]
      ∧ validate_access (create_access_token "alice" ["me"] 0 900) 1000 =
        AccessValidation.expired) :=
  ⟨by norm_num, by norm_num,
    accessTokenRoundTrip "alice" ["me"] 0 900 10 1000 (by norm_num) (by norm_num)⟩

/-- Claim C8: `logout` is idempotent and never fails — for every store
state and refresh token (consumed, invalid, or otherwise), a logout call
answers "Successfully logged out", and so does a second logout call with
the very same token against the updated store. -/
theorem logoutIdempotent (svc : RefreshService) (s : Store) (tok : Payload) (now : ℚ) :
    (logout svc s tok now).1 = "Successfully logged out"
    ∧ (logout svc (logout svc s tok now).2 tok now).1 = "Successfully logged out" := by
  cases h : decode_refresh_token tok now <;> simp [logout, h]

/-- Claim C9: refresh-token decoding rejects credentials by claim type —
any payload whose `type` field is not `"refresh"` decodes to `None`; in
particular every access credential (which carries no `type` field at all)
decodes to `None`, so the refresh and logout-all endpoints answer 401
"invalid refresh token" when given one: an access credential can never be
consumed as a refresh credential. -/
theorem refreshTypeCheck :
    (∀ (p : Payload) (now : ℚ), p.ty ≠ some "refresh" →
      decode_refresh_token p now = none)
    ∧ (∀ (sub : String) (scopes : List String) (now delta t : ℚ),
      decode_refresh_token (create_access_token sub scopes now delta) t = none)
    ∧ (∀ (env : Env) (svc : RefreshService) (m : ℚ) (days : ℕ) (avail : Bool)
        (s : Store) (sub : String) (scopes : List String) (now delta t : ℚ) (j : String),
      refresh_access_token env svc m days avail s
          (create_access_token sub scopes now delta) t j = (.invalidToken, s))
    ∧ (∀ (s : Store) (sub : String) (scopes : List String) (now delta t : ℚ),
      logout_all_devices s (create_access_token sub scopes now delta) t =
        (.invalidToken, s)) := by
  have hnone : ∀ (p : Payload) (now : ℚ), p.ty ≠ some "refresh" →
      decode_refresh_token p now = none := by
    intro p now h
    simp only [decode_refresh_token]
    rw [if_pos h]
  have hacc : ∀ (sub : String) (scopes : List String) (now delta t : ℚ),
      decode_refresh_token (create_access_token sub scopes now delta) t = none := by
    intro sub scopes now delta t
    exact hnone _ t (by simp [create_access_token])
  refine ⟨hnone, hacc, ?_, ?_⟩
  · intro env svc m days avail s sub scopes now delta t j
    exact refresh_badToken env svc m days avail s _ t j (hacc sub scopes now delta t)
  · intro s sub scopes now delta t
    simp only [logout_all_devices, hacc]

/-- Claim C9 witness: a concrete access credential is rejected by the
refresh decoder and by the refresh endpoint. -/
theorem refreshTypeCheck_witness :
    (create_access_token "alice" ["me"] 0 900).ty ≠ some "refresh" ∧
    decode_refresh_token (create_access_token "alice" ["me"] 0 900) 10 = none ∧
    refresh_access_token envT (RefreshService.ofDays 7) 15 7 true []
        (create_access_token "alice" ["me"] 0 900) 10 "j9" = (.invalidToken, []) :=
  ⟨by simp [create_access_token],
   refreshTypeCheck.1 (create_access_token "alice" ["me"] 0 900) 10
     (by simp [create_access_token]),
   refreshTypeCheck.2.2.1 envT (RefreshService.ofDays 7) 15 7 true [] "alice" ["me"] 0 900 10 "j9"⟩

/-- Claim C5 counterexample: the used-jti marker is written with the full
configured lifetime (7 days = 604800 s), not with the remaining lifetime
of the consumed credential: a credential issued at time 1000 and consumed
at time 1100 has 604700 s of validity left, yet its marker's TTL is
604800. -/
theorem markUsedTTLCounterexample :
    storedTTL (mark_token_as_used (RefreshService.ofDays 7) [] "j1") (RKey.usedJti "j1")
      = some 604800
    ∧ remainingLifetime (create_refresh_token "u1" "F1" "j1" 1000 7) 1100 = 604700
    ∧ ((604800 : ℚ) ≠ 604700) := by
  refine ⟨by decide, ?_, by norm_num⟩
  simp only [remainingLifetime, create_refresh_token]
  norm_num

/-- Claim C5 (amended): `mark_token_as_used` writes the used-jti marker
with TTL equal to the full configured refresh-token lifetime
(`REFRESH_TOKEN_EXPIRE_DAYS * 24 * 3600` seconds), and since a refresh
credential is issued with exactly that lifetime, the marker's TTL is at
least the remaining validity of any credential consumed at or after its
issuance — the marker cannot expire before the credential it guards
would have. -/
theorem markUsedTTLSpec (days : ℕ) (uid fam j : String) (tIssue tNow : ℚ)
    (s : Store) (h : tIssue ≤ tNow) :
    storedTTL (mark_token_as_used (RefreshService.ofDays days) s j) (RKey.usedJti j)
      = some (days * 24 * 3600)
    ∧ remainingLifetime (create_refresh_token uid fam j tIssue days) tNow
      ≤ ((days * 24 * 3600 : ℕ) : ℚ) := by
  constructor
  · simp [storedTTL, mark_token_as_used, RefreshService.ofDays]
  · simp only [remainingLifetime, create_refresh_token]
    push_cast
    ring_nf
    linarith

/-- Claim C5 witness: the amended TTL theorem at 7 days, a credential
issued at time 1000, consumed at time 1100. -/
theorem markUsedTTLSpec_witness :
    (1000 : ℚ) ≤ 1100 ∧
    (storedTTL (mark_token_as_used (RefreshService.ofDays 7) [] "j1") (RKey.usedJti "j1")
        = some (7 * 24 * 3600)
      ∧ remainingLifetime (create_refresh_token "u1" "F1" "j1" 1000 7) 1100
        ≤ ((7 * 24 * 3600 : ℕ) : ℚ)) :=
  ⟨by norm_num, markUsedTTLSpec 7 "u1" "F1" "j1" 1000 1100 [] (by norm_num)⟩

theorem mem_keysOf_revoke (s : Store) (uid : String) (k : RKey)
    (hk : ∀ u r, k ≠ RKey.userTok u r) :
    k ∈ keysOf (revoke_all_user_tokens s uid) ↔ k ∈ keysOf s := by
  simp only [keysOf, revoke_all_user_tokens, List.mem_map, List.mem_filter]
  constructor
  · rintro ⟨e, ⟨he, _⟩, hek⟩
    exact ⟨e, he, hek⟩
  · rintro ⟨e, he, hek⟩
    refine ⟨e, ⟨he, ?_⟩, hek⟩
    obtain ⟨ek, ttl⟩ := e
    cases ek with
    | usedJti j => rfl
    | tokenFamily f => rfl
    | userTok u r => exact absurd hek (by intro h; exact hk u r h.symm)

/-- Claim C6 counterexample: with an empty store, user `u1` holds family
`F1` with the unconsumed sibling credential `j2`; calling logout-all with
the valid credential `j1` answers success, yet a refresh presenting the
sibling `j2` of the same family afterwards still succeeds — it is not
rejected, so logout-all does not invalidate the user's families. -/
theorem logoutAllCounterexample :
    (logout_all_devices [] (create_refresh_token "u1" "F1" "j1" 1 7) 1).1 =
      LogoutAllOutcome.ok
    ∧ (refresh_access_token envT (RefreshService.ofDays 7) 15 7 true
        (logout_all_devices [] (create_refresh_token "u1" "F1" "j1" 1 7) 1).2
        (create_refresh_token "u1" "F1" "j2" 1 7) 1 "j3").1
      = RefreshOutcome.ok (create_access_token "u1" ["me"] 1 (15 * 60))
          (create_refresh_token "u1" "F1" "j3" 1 7) := by
  have hdec1 : decode_refresh_token (create_refresh_token "u1" "F1" "j1" 1 7) 1 =
      some { user_id := "u1", token_family := "F1", jti := "j1", issued_at := 1 } :=
    decode_create_refresh "u1" "F1" "j1" 1 1 7 (by decide) (by decide) (by decide)
      (by norm_num) (by norm_num) (by norm_num)
  have hdec2 : decode_refresh_token (create_refresh_token "u1" "F1" "j2" 1 7) 1 =
      some { user_id := "u1", token_family := "F1", jti := "j2", issued_at := 1 } :=
    decode_create_refresh "u1" "F1" "j2" 1 1 7 (by decide) (by decide) (by decide)
      (by norm_num) (by norm_num) (by norm_num)
  constructor
  · simp only [logout_all_devices, hdec1]
  · have hstate2 : (logout_all_devices [] (create_refresh_token "u1" "F1" "j1" 1 7) 1).2 = [] := by
      simp only [logout_all_devices, hdec1]
      rfl
    rw [hstate2,
        refresh_success envT (RefreshService.ofDays 7) 15 7 []
          (create_refresh_token "u1" "F1" "j2" 1 7) 1 "j3"
          { user_id := "u1", token_family := "F1", jti := "j2", issued_at := 1 }
          uT ["me"] hdec2
          (by simp [is_token_used, keysOf])
          (by simp [is_token_family_valid, keysOf])
          (by rfl) (by rfl) (by rfl)]
    rfl

/-- Claim C6 (amended): `logout_all_devices` resolves the user from the
refresh credential and then deletes only keys matching
`user_tokens:{user_id}:*`; the service never writes such keys, and in
particular the call leaves every used-jti marker and every
family-invalidation marker untouched, so any decodable, unused refresh
credential of a still-valid family — including every credential of the
calling user — still refreshes successfully afterwards. -/
theorem logoutAllStubSpec :
    (∀ (s : Store) (tok : Payload) (now : ℚ) (j : String),
      is_token_used (logout_all_devices s tok now).2 j ↔ is_token_used s j)
    ∧ (∀ (s : Store) (tok : Payload) (now : ℚ) (f : String),
      is_token_family_valid (logout_all_devices s tok now).2 f ↔ is_token_family_valid s f)
    ∧ (∀ (env : Env) (svc : RefreshService) (m : ℚ) (days : ℕ) (s : Store)
        (tok tok2 : Payload) (now : ℚ) (jN : String) (d2 : RefreshTokenData)
        (u : UserRec) (perms : List String),
      decode_refresh_token tok2 now = some d2 →
      ¬ is_token_used s d2.jti →
      is_token_family_valid s d2.token_family →
      env.lookupUser d2.user_id = some u →
      u.is_active = true →
      env.lookupPerms u.user_type = some perms →
      (refresh_access_token env svc m days true (logout_all_devices s tok now).2
          tok2 now jN).1
        = RefreshOutcome.ok (create_access_token u.id perms now (m * 60))
            (create_refresh_token u.id d2.token_family jN now days)) := by
  have hused : ∀ (s : Store) (tok : Payload) (now : ℚ) (j : String),
      is_token_used (logout_all_devices s tok now).2 j ↔ is_token_used s j := by
    intro s tok now j
    cases h : decode_refresh_token tok now with
    | none => simp [logout_all_devices, h]
    | some d =>
      simp only [logout_all_devices, h]
      exact mem_keysOf_revoke s d.user_id (RKey.usedJti j)
        (by intro u r h1; cases h1)
  have hfam : ∀ (s : Store) (tok : Payload) (now : ℚ) (f : String),
      is_token_family_valid (logout_all_devices s tok now).2 f ↔
        is_token_family_valid s f := by
    intro s tok now f
    cases h : decode_refresh_token tok now with
    | none => simp [logout_all_devices, h]
    | some d =>
      simp only [logout_all_devices, h]
      exact not_congr (mem_keysOf_revoke s d.user_id (RKey.tokenFamily f)
        (by intro u r h1; cases h1))
  refine ⟨hused, hfam, ?_⟩
  intro env svc m days s tok tok2 now jN d2 u perms hdec2 hun2 hfam2 hu hact hperms
  rw [refresh_success env svc m days _ tok2 now jN d2 u perms hdec2
      (fun hc => hun2 ((hused s tok now d2.jti).mp hc))
      ((hfam s tok now d2.token_family).mpr hfam2)
      hu hact hperms]

/-- Claim C7 counterexample: with Redis unreachable during the refresh
flow's store calls, a refresh presenting a well-formed credential
surfaces as the exception escaping the handler — HTTP 500 through the
framework's generic handler, not the 503 retryable
temporarily-unavailable response the claim prescribes. -/
theorem storeFailureCounterexample :
    (refresh_access_token envT (RefreshService.ofDays 7) 15 7 false []
        (create_refresh_token "u1" "F1" "j1" 1 7) 1 "j2").1 = RefreshOutcome.storeExn
    ∧ httpStatus (refresh_access_token envT (RefreshService.ofDays 7) 15 7 false []
        (create_refresh_token "u1" "F1" "j1" 1 7) 1 "j2").1 = 500
    ∧ httpStatus (refresh_access_token envT (RefreshService.ofDays 7) 15 7 false []
        (create_refresh_token "u1" "F1" "j1" 1 7) 1 "j2").1 ≠ 503 := by
  have hdec : decode_refresh_token (create_refresh_token "u1" "F1" "j1" 1 7) 1 =
      some { user_id := "u1", token_family := "F1", jti := "j1", issued_at := 1 } :=
    decode_create_refresh "u1" "F1" "j1" 1 1 7 (by decide) (by decide) (by decide)
      (by norm_num) (by norm_num) (by norm_num)
  rw [refresh_storeDown envT (RefreshService.ofDays 7) 15 7 [] _ 1 "j2" _ hdec]
  exact ⟨rfl, rfl, by decide⟩

/-- Claim C7 (amended): a store failure during the refresh flow (the
`is_token_used` call is the first store access, reached whenever the
credential decodes) propagates out of the handler as the raised
exception: the client sees the framework's generic 500
internal-server-error, not a 503 service-unavailable response; the
failure is never converted into the 401 invalid-token or 401
user-not-found rejections. -/
theorem storeFailureSpec (env : Env) (svc : RefreshService) (m : ℚ) (days : ℕ)
    (s : Store) (tok : Payload) (now : ℚ) (j : String) (d : RefreshTokenData)
    (hdec : decode_refresh_token tok now = some d) :
    refresh_access_token env svc m days false s tok now j = (.storeExn, s)
    ∧ httpStatus (refresh_access_token env svc m days false s tok now j).1 = 500
    ∧ (refresh_access_token env svc m days false s tok now j).1 ≠ .invalidToken
    ∧ (refresh_access_token env svc m days false s tok now j).1 ≠ .userNotFound
    ∧ httpStatus (refresh_access_token env svc m days false s tok now j).1 ≠ 503 := by
  rw [refresh_storeDown env svc m days s tok now j d hdec]
  exact ⟨rfl, rfl, by simp, by simp, by simp [httpStatus]⟩

/-- Claim C7 witness: the store-failure theorem at the concrete credential
`u1/F1/j1`. -/
theorem storeFailureSpec_witness :
    decode_refresh_token (create_refresh_token "u1" "F1" "j1" 1 7) 1 =
      some { user_id := "u1", token_family := "F1", jti := "j1", issued_at := 1 }
    ∧ (refresh_access_token envNone (RefreshService.ofDays 7) 15 7 false []
        (create_refresh_token "u1" "F1" "j1" 1 7) 1 "j2" = (.storeExn, [])
      ∧ httpStatus (refresh_access_token envNone (RefreshService.ofDays 7) 15 7 false []
          (create_refresh_token "u1" "F1" "j1" 1 7) 1 "j2").1 = 500
      ∧ (refresh_access_token envNone (RefreshService.ofDays 7) 15 7 false []
          (create_refresh_token "u1" "F1" "j1" 1 7) 1 "j2").1 ≠ .invalidToken
      ∧ (refresh_access_token envNone (RefreshService.ofDays 7) 15 7 false []
          (create_refresh_token "u1" "F1" "j1" 1 7) 1 "j2").1 ≠ .userNotFound
      ∧ httpStatus (refresh_access_token envNone (RefreshService.ofDays 7) 15 7 false []
          (create_refresh_token "u1" "F1" "j1" 1 7) 1 "j2").1 ≠ 503) := by
  have hdec : decode_refresh_token (create_refresh_token "u1" "F1" "j1" 1 7) 1 =
      some { user_id := "u1", token_family := "F1", jti := "j1", issued_at := 1 } :=
    decode_create_refresh "u1" "F1" "j1" 1 1 7 (by decide) (by decide) (by decide)
      (by norm_num) (by norm_num) (by norm_num)
  exact ⟨hdec, storeFailureSpec envNone (RefreshService.ofDays 7) 15 7 []
    (create_refresh_token "u1" "F1" "j1" 1 7) 1 "j2" _ hdec⟩

/-- Claim C10: the refresh flow marks the presented `jti` used before the
user and permission lookups; when a late lookup fails (user missing,
inactive, or without a permission set) after the replay and family checks
passed, the outcome is the 401/403 error yet the resulting store already
holds the used-jti marker — the credential is permanently consumed with
no new pair issued, and a retry with the same credential is answered
`ReplayDetected` and invalidates the whole family; nothing is rolled
back. -/
theorem refreshNotAtomicSpec (env : Env) (svc : RefreshService) (m : ℚ) (days : ℕ)
    (s : Store) (tok : Payload) (now : ℚ) (j j2 : String) (d : RefreshTokenData)
    (hdec : decode_refresh_token tok now = some d)
    (hunused : ¬ is_token_used s d.jti)
    (hfam : is_token_family_valid s d.token_family)
    (hfail : env.lookupUser d.user_id = none
      ∨ (∃ u, env.lookupUser d.user_id = some u ∧ u.is_active = false)
      ∨ (∃ u, env.lookupUser d.user_id = some u ∧ u.is_active = true
          ∧ env.lookupPerms u.user_type = none)) :
    ((refresh_access_token env svc m days true s tok now j).1 = .userNotFound
      ∨ (refresh_access_token env svc m days true s tok now j).1 = .permissionsMissing)
    ∧ (refresh_access_token env svc m days true s tok now j).2 =
        mark_token_as_used svc s d.jti
    ∧ is_token_used (mark_token_as_used svc s d.jti) d.jti
    ∧ refresh_access_token env svc m days true (mark_token_as_used svc s d.jti)
        tok now j2
      = (.replayDetected,
         invalidate_token_family svc (mark_token_as_used svc s d.jti) d.token_family)
    ∧ ¬ is_token_family_valid
        (invalidate_token_family svc (mark_token_as_used svc s d.jti) d.token_family)
        d.token_family := by
  have hmark : is_token_used (mark_token_as_used svc s d.jti) d.jti := by
    simp [is_token_used, mark_token_as_used, keysOf]
  have hreplay := refresh_replay env svc m days (mark_token_as_used svc s d.jti)
    tok now j2 d hdec hmark
  have hinv : ¬ is_token_family_valid
      (invalidate_token_family svc (mark_token_as_used svc s d.jti) d.token_family)
      d.token_family := by
    simp [is_token_family_valid, invalidate_token_family, keysOf]
  rcases hfail with hnone | ⟨u, hu, hact⟩ | ⟨u, hu, hact, hperms⟩
  · rw [refresh_userMissing env svc m days s tok now j d hdec hunused hfam hnone]
    exact ⟨Or.inl rfl, rfl, hmark, hreplay, hinv⟩
  · rw [refresh_userInactive env svc m days s tok now j d u hdec hunused hfam hu hact]
    exact ⟨Or.inl rfl, rfl, hmark, hreplay, hinv⟩
  · rw [refresh_noPerms env svc m days s tok now j d u hdec hunused hfam hu hact hperms]
    exact ⟨Or.inr rfl, rfl, hmark, hreplay, hinv⟩

/-- Claim C10 witness: the non-atomicity theorem against a database with
no users — the first refresh consumes `j1` and fails user lookup, the
retry is answered as a replay and the family ends invalidated. -/
theorem refreshNotAtomicSpec_witness :
    decode_refresh_token (create_refresh_token "u1" "F1" "j1" 1 7) 1 =
      some { user_id := "u1", token_family := "F1", jti := "j1", issued_at := 1 }
    ∧ ¬ is_token_used [] "j1"
    ∧ is_token_family_valid [] "F1"
    ∧ envNone.lookupUser "u1" = none
    ∧ (((refresh_access_token envNone (RefreshService.ofDays 7) 15 7 true []
          (create_refresh_token "u1" "F1" "j1" 1 7) 1 "j2").1 = .userNotFound
        ∨ (refresh_access_token envNone (RefreshService.ofDays 7) 15 7 true []
          (create_refresh_token "u1" "F1" "j1" 1 7) 1 "j2").1 = .permissionsMissing)
      ∧ (refresh_access_token envNone (RefreshService.ofDays 7) 15 7 true []
          (create_refresh_token "u1" "F1" "j1" 1 7) 1 "j2").2 =
          mark_token_as_used (RefreshService.ofDays 7) [] "j1"
      ∧ is_token_used (mark_token_as_used (RefreshService.ofDays 7) [] "j1") "j1"
      ∧ refresh_access_token envNone (RefreshService.ofDays 7) 15 7 true
          (mark_token_as_used (RefreshService.ofDays 7) [] "j1")
          (create_refresh_token "u1" "F1" "j1" 1 7) 1 "j3"
        = (.replayDetected,
           invalidate_token_family (RefreshService.ofDays 7)
             (mark_token_as_used (RefreshService.ofDays 7) [] "j1") "F1")
      ∧ ¬ is_token_family_valid
          (invalidate_token_family (RefreshService.ofDays 7)
            (mark_token_as_used (RefreshService.ofDays 7) [] "j1") "F1") "F1") := by
  have hdec : decode_refresh_token (create_refresh_token "u1" "F1" "j1" 1 7) 1 =
      some { user_id := "u1", token_family := "F1", jti := "j1", issued_at := 1 } :=
    decode_create_refresh "u1" "F1" "j1" 1 1 7 (by decide) (by decide) (by decide)
      (by norm_num) (by norm_num) (by norm_num)
  have hunused : ¬ is_token_used [] "j1" := by simp [is_token_used, keysOf]
  have hfam : is_token_family_valid [] "F1" := by simp [is_token_family_valid, keysOf]
  exact ⟨hdec, hunused, hfam, rfl,
    refreshNotAtomicSpec envNone (RefreshService.ofDays 7) 15 7 []
      (create_refresh_token "u1" "F1" "j1" 1 7) 1 "j2" "j3" _ hdec hunused hfam
      (Or.inl rfl)⟩

theorem is_token_used_mark (svc : RefreshService) (s : Store) (j j' : String) :
    is_token_used (mark_token_as_used svc s j) j' ↔ (j' = j ∨ is_token_used s j') := by
  simp [is_token_used, mark_token_as_used, keysOf]

theorem is_token_family_valid_mark (svc : RefreshService) (s : Store) (j f : String) :
    is_token_family_valid (mark_token_as_used svc s j) f ↔ is_token_family_valid s f := by
  simp [is_token_family_valid, mark_token_as_used, keysOf]

theorem is_token_used_invalidate (svc : RefreshService) (s : Store) (f j' : String) :
    is_token_used (invalidate_token_family svc s f) j' ↔ is_token_used s j' := by
  simp [is_token_used, invalidate_token_family, keysOf]

theorem is_token_family_valid_invalidate (svc : RefreshService) (s : Store) (f f' : String) :
    is_token_family_valid (invalidate_token_family svc s f) f' ↔
      (f' ≠ f ∧ is_token_family_valid s f') := by
  simp [is_token_family_valid, invalidate_token_family, keysOf, not_or]

theorem GoodChain.step (env : Env) (svc : RefreshService) (m : ℚ) (days : ℕ)
    (u : UserRec) (perms : List String) (fam : String) (now : ℚ)
    (js : ℕ → String) (p : Payload) (s : Store)
    (h : GoodChain env u perms fam days now js p s) :
    ∃ s1, refresh_access_token env svc m days true s p now (js 0)
        = (.ok (create_access_token u.id perms now (m * 60))
               (create_refresh_token u.id fam (js 0) now days), s1)
      ∧ GoodChain env u perms fam days now (fun i => js (i + 1))
          (create_refresh_token u.id fam (js 0) now days) s1 := by
  obtain ⟨⟨d, hdec, hdfam, hdu, hdun, hjsne⟩, hfamv, hjsun, hinj, hjsnem,
    hact, huid, hperms, huidne, hfamne, hnow⟩ := h
  have hfamv' : is_token_family_valid s d.token_family := hdfam ▸ hfamv
  refine ⟨mark_token_as_used svc s d.jti, ?_, ?_⟩
  · rw [refresh_success env svc m days s p now (js 0) d u perms hdec hdun hfamv'
        hdu hact hperms, hdfam]
  · have hdec' : decode_refresh_token
        (create_refresh_token u.id fam (js 0) now days) now =
        some { user_id := u.id, token_family := fam, jti := js 0, issued_at := now } :=
      decode_create_refresh u.id fam (js 0) now now days huidne hfamne (hjsnem 0)
        (ne_of_gt hnow)
        (ne_of_gt (by positivity))
        (not_lt.mpr (le_add_of_nonneg_right (by positivity)))
    refine ⟨⟨{ user_id := u.id, token_family := fam, jti := js 0, issued_at := now },
        hdec', rfl, huid, ?_, ?_⟩, ?_, ?_, ?_, ?_, hact, huid, hperms,
        huidne, hfamne, hnow⟩
    · rw [is_token_used_mark]
      push_neg
      exact ⟨hjsne 0, hjsun 0⟩
    · intro i hc
      exact Nat.succ_ne_zero i (hinj hc)
    · rw [is_token_family_valid_mark]
      exact hfamv
    · intro i
      rw [is_token_used_mark]
      push_neg
      exact ⟨hjsne (i + 1), hjsun (i + 1)⟩
    · intro a b hab
      exact Nat.succ_injective (hinj hab)
    · intro i
      exact hjsnem (i + 1)

theorem rotateIter_ok (env : Env) (svc : RefreshService) (m : ℚ) (days : ℕ)
    (u : UserRec) (perms : List String) (fam : String) (now : ℚ) :
    ∀ (k : ℕ) (js : ℕ → String) (p : Payload) (s : Store),
      GoodChain env u perms fam days now js p s →
      (1 ≤ k → (rotateIter env svc m days now js k (p, s)).1
        = create_refresh_token u.id fam (js (k - 1)) now days)
      ∧ GoodChain env u perms fam days now (fun i => js (i + k))
          (rotateIter env svc m days now js k (p, s)).1
          (rotateIter env svc m days now js k (p, s)).2 := by
  intro k
  induction k with
  | zero =>
    intro js p s h
    exact ⟨fun hk => absurd hk (by norm_num), h⟩
  | succ k ih =>
    intro js p s h
    obtain ⟨s1, hstep, hnext⟩ := GoodChain.step env svc m days u perms fam now js p s h
    have hrot : rotateIter env svc m days now js (k + 1) (p, s)
        = rotateIter env svc m days now (fun i => js (i + 1)) k
            (create_refresh_token u.id fam (js 0) now days, s1) := by
      simp only [rotateIter, hstep]
    rcases ih (fun i => js (i + 1))
      (create_refresh_token u.id fam (js 0) now days) s1 hnext with ⟨ih1, ih2⟩
    constructor
    · intro _
      rw [hrot]
      cases k with
      | zero => simp [rotateIter]
      | succ k' => exact ih1 (Nat.succ_le_succ (Nat.zero_le k'))
    · rw [hrot]
      exact ih2

theorem jsW_inj : Function.Injective jsW := by
  intro a b h
  have h2 : a + 1 = b + 1 := by
    have := congrArg (fun s : String => s.data.length) h
    simpa [jsW] using this
  omega

theorem jsW_ne_empty (i : ℕ) : jsW i ≠ "" := by
  intro h
  have := congrArg (fun s : String => s.data.length) h
  simp [jsW] at this

theorem jsW_ne_j1 (i : ℕ) : jsW i ≠ "j1" := by
  intro h
  have hj : ("j1" : String).data.length = 2 := rfl
  have hlen : i + 1 = 2 := by
    have h3 := congrArg (fun s : String => s.data.length) h
    simpa [jsW, hj] using h3
  have hi : i = 1 := by omega
  rw [hi] at h
  exact absurd h (by decide)

theorem goodChainConcrete :
    GoodChain envT uT ["me"] "F1" 7 1 jsW (create_refresh_token "u1" "F1" "j1" 1 7) [] := by
  refine ⟨⟨{ user_id := "u1", token_family := "F1", jti := "j1", issued_at := 1 },
      ?_, rfl, rfl, ?_, jsW_ne_j1⟩, ?_, ?_, jsW_inj, jsW_ne_empty,
      rfl, rfl, rfl, by decide, by decide, by norm_num⟩
  · exact decode_create_refresh "u1" "F1" "j1" 1 1 7 (by decide) (by decide) (by decide)
      (by norm_num) (by norm_num) (by norm_num)
  · simp [is_token_used, keysOf]
  · simp [is_token_family_valid, keysOf]
  · intro i
    simp [is_token_used, keysOf]

/-- Claim C1: refresh rotation and replay protection.
(1) From any state satisfying the chain preconditions, any number `k ≥ 1`
of sequential refresh rotations succeeds and the `k`-th rotated
credential carries the same `token_family` as the original while its
`jti` is the `k`-th fresh draw — the family is preserved across any
number of rotations and the `jti` changes every time.
(2) Presenting a credential whose `jti` is already consumed fails as a
replay and invalidates the whole family in the resulting store.
(3) Presenting an unconsumed credential of an invalidated family fails
as family-invalidated — including credentials never yet presented.
(4) The concrete scenario: login issues family `F1`/`j1`; refresh with
`j1` succeeds yielding `F1`/`j2`; replaying `j1` fails as a replay and
invalidates the family; a refresh with the rotated `j2` credential then
fails because the family is invalidated. -/
theorem refreshRotationSpec :
    (∀ (env : Env) (svc : RefreshService) (m : ℚ) (days : ℕ) (u : UserRec)
        (perms : List String) (fam : String) (now : ℚ) (js : ℕ → String)
        (p : Payload) (s : Store),
      GoodChain env u perms fam days now js p s →
      ∀ k, 1 ≤ k → (rotateIter env svc m days now js k (p, s)).1
        = create_refresh_token u.id fam (js (k - 1)) now days)
    ∧ (∀ (env : Env) (svc : RefreshService) (m : ℚ) (days : ℕ) (s : Store)
        (tok : Payload) (now : ℚ) (j : String) (d : RefreshTokenData),
      decode_refresh_token tok now = some d →
      is_token_used s d.jti →
      refresh_access_token env svc m days true s tok now j
        = (.replayDetected, invalidate_token_family svc s d.token_family)
      ∧ ¬ is_token_family_valid (invalidate_token_family svc s d.token_family)
          d.token_family)
    ∧ (∀ (env : Env) (svc : RefreshService) (m : ℚ) (days : ℕ) (s : Store)
        (tok : Payload) (now : ℚ) (j : String) (d : RefreshTokenData),
      decode_refresh_token tok now = some d →
      ¬ is_token_used s d.jti →
      ¬ is_token_family_valid s d.token_family →
      refresh_access_token env svc m days true s tok now j = (.familyInvalidated, s))
    ∧ (refresh_access_token envT (RefreshService.ofDays 7) 15 7 true []
        (create_refresh_token "u1" "F1" "j1" 1 7) 1 "j2"
      = (.ok (create_access_token "u1" ["me"] 1 (15 * 60))
             (create_refresh_token "u1" "F1" "j2" 1 7),
         mark_token_as_used (RefreshService.ofDays 7) [] "j1")
      ∧ refresh_access_token envT (RefreshService.ofDays 7) 15 7 true
          (mark_token_as_used (RefreshService.ofDays 7) [] "j1")
          (create_refresh_token "u1" "F1" "j1" 1 7) 1 "j3"
        = (.replayDetected,
           invalidate_token_family (RefreshService.ofDays 7)
             (mark_token_as_used (RefreshService.ofDays 7) [] "j1") "F1")
      ∧ (refresh_access_token envT (RefreshService.ofDays 7) 15 7 true
          (invalidate_token_family (RefreshService.ofDays 7)
            (mark_token_as_used (RefreshService.ofDays 7) [] "j1") "F1")
          (create_refresh_token "u1" "F1" "j2" 1 7) 1 "j3").1
        = RefreshOutcome.familyInvalidated) := by
  have hdec1 : decode_refresh_token (create_refresh_token "u1" "F1" "j1" 1 7) 1 =
      some { user_id := "u1", token_family := "F1", jti := "j1", issued_at := 1 } :=
    decode_create_refresh "u1" "F1" "j1" 1 1 7 (by decide) (by decide) (by decide)
      (by norm_num) (by norm_num) (by norm_num)
  have hdec2 : decode_refresh_token (create_refresh_token "u1" "F1" "j2" 1 7) 1 =
      some { user_id := "u1", token_family := "F1", jti := "j2", issued_at := 1 } :=
    decode_create_refresh "u1" "F1" "j2" 1 1 7 (by decide) (by decide) (by decide)
      (by norm_num) (by norm_num) (by norm_num)
  refine ⟨?_, ?_, ?_, ?_, ?_, ?_⟩
  · intro env svc m days u perms fam now js p s h k hk
    exact ((rotateIter_ok env svc m days u perms fam now k js p s h).1) hk
  · intro env svc m days s tok now j d hdec hused
    refine ⟨refresh_replay env svc m days s tok now j d hdec hused, ?_⟩
    rw [is_token_family_valid_invalidate]
    push_neg
    intro hc
    exact absurd rfl hc
  · intro env svc m days s tok now j d hdec hunused hinv
    exact refresh_famInvalid env svc m days s tok now j d hdec hunused hinv
  · rw [refresh_success envT (RefreshService.ofDays 7) 15 7 []
        (create_refresh_token "u1" "F1" "j1" 1 7) 1 "j2"
        { user_id := "u1", token_family := "F1", jti := "j1", issued_at := 1 }
        uT ["me"] hdec1 (by simp [is_token_used, keysOf])
        (by simp [is_token_family_valid, keysOf]) rfl rfl rfl]
    rfl
  · rw [refresh_replay envT (RefreshService.ofDays 7) 15 7
        (mark_token_as_used (RefreshService.ofDays 7) [] "j1")
        (create_refresh_token "u1" "F1" "j1" 1 7) 1 "j3"
        { user_id := "u1", token_family := "F1", jti := "j1", issued_at := 1 }
        hdec1 (by simp [is_token_used, mark_token_as_used, keysOf])]
  · rw [refresh_famInvalid envT (RefreshService.ofDays 7) 15 7
        (invalidate_token_family (RefreshService.ofDays 7)
          (mark_token_as_used (RefreshService.ofDays 7) [] "j1") "F1")
        (create_refresh_token "u1" "F1" "j2" 1 7) 1 "j3"
        { user_id := "u1", token_family := "F1", jti := "j2", issued_at := 1 }
        hdec2 ?_ ?_]
    · rw [is_token_used_invalidate, is_token_used_mark]
      push_neg
      exact ⟨by decide, by simp [is_token_used, keysOf]⟩
    · rw [is_token_family_valid_invalidate]
      push_neg
      intro hc
      exact absurd rfl hc

/-- Claim C1 witness: the rotation theorem applied to the concrete chain
starting from the login credential `u1`/`F1`/`j1` with the fresh-jti
stream `jsW`, rotated once. -/
theorem refreshRotationSpec_witness :
    GoodChain envT uT ["me"] "F1" 7 1 jsW (create_refresh_token "u1" "F1" "j1" 1 7) []
    ∧ (rotateIter envT (RefreshService.ofDays 7) 15 7 1 jsW 1
        (create_refresh_token "u1" "F1" "j1" 1 7, [])).1
      = create_refresh_token uT.id "F1" (jsW 0) 1 7 :=
  ⟨goodChainConcrete,
    refreshRotationSpec.1 envT (RefreshService.ofDays 7) 15 7 uT ["me"] "F1" 1 jsW
      (create_refresh_token "u1" "F1" "j1" 1 7) [] goodChainConcrete 1 (le_refl 1)⟩

/-- Claim C6 witness: the amended logout-all theorem applied at the
concrete user `u1`: marker preservation and a successful refresh of the
sibling credential after the logout-all call. -/
theorem logoutAllStubSpec_witness :
    decode_refresh_token (create_refresh_token "u1" "F1" "j2" 1 7) 1 =
      some { user_id := "u1", token_family := "F1", jti := "j2", issued_at := 1 }
    ∧ (refresh_access_token envT (RefreshService.ofDays 7) 15 7 true
        (logout_all_devices [] (create_refresh_token "u1" "F1" "j1" 1 7) 1).2
        (create_refresh_token "u1" "F1" "j2" 1 7) 1 "j3").1
      = RefreshOutcome.ok (create_access_token uT.id ["me"] 1 (15 * 60))
          (create_refresh_token uT.id "F1" "j3" 1 7) := by
  have hdec2 : decode_refresh_token (create_refresh_token "u1" "F1" "j2" 1 7) 1 =
      some { user_id := "u1", token_family := "F1", jti := "j2", issued_at := 1 } :=
    decode_create_refresh "u1" "F1" "j2" 1 1 7 (by decide) (by decide) (by decide)
      (by norm_num) (by norm_num) (by norm_num)
  refine ⟨hdec2, logoutAllStubSpec.2.2 envT (RefreshService.ofDays 7) 15 7 []
    (create_refresh_token "u1" "F1" "j1" 1 7) (create_refresh_token "u1" "F1" "j2" 1 7)
    1 "j3" { user_id := "u1", token_family := "F1", jti := "j2", issued_at := 1 }
    uT ["me"] hdec2 ?_ ?_ rfl rfl rfl⟩
  · simp [is_token_used, keysOf]
  · simp [is_token_family_valid, keysOf]
